import Mathlib

/-!
Shallow embedding of the document-completeness / profile-token core of a
maritime crew recruitment portal.

Source files embedded:
  models (CrewMember, CrewDocument, the catalog, completion percentage,
  profile-token issue, file-size formatting), the upload utilities
  (save_crew_document, save_multiple_crew_documents) and the routes
  (crew_private_profile, update_crew_status).

Modelling conventions:
  machine integers are Nat/Int; timestamps are Nat ticks; the relational
  table of documents is a List in insertion order; the byte store is a
  list of stored paths; randomness (uuid hex, secrets.token_bytes) and the
  external sha256/secure_filename collaborators are explicit parameters;
  a Python method that also returns by mutating `self` is a function
  returning the new record/state.  Note: in the models snapshot the
  token/completion methods are indented under the CrewDocument class while
  reading applicant fields (self.passport, self.profile_token) and being
  invoked on CrewMember objects by the routes; they are embedded here as
  operations on the applicant record plus the documents table, which is
  the only reading under which they execute.
-/

/-- One row of the crew_members table (the fields the core reads or writes). -/
structure CrewMemberState where
  id : Nat
  name : String
  rank : String
  passport : String
  profile_token : Option String
  status : Int
  admin_notes : Option String
  screening_notes : Option String
  created_at : Nat
  updated_at : Nat
deriving DecidableEq, Repr

/-- One row of the crew_documents table.  file_size is ℚ because
get_file_size_formatted divides the stored value by 1024.0 in place
(binary divisions by 1024 are exact in floating point for the sizes at
stake, so ℚ agrees with Python float here). -/
structure CrewDocument where
  id : Nat
  crew_id : Nat
  document_type : String
  document_category : String
  filename : String
  original_filename : String
  file_size : Option ℚ
  mime_type : Option String
  upload_date : Nat
deriving DecidableEq, Repr

/-- Descending order on upload_date, the order_by of every document query. -/
def docGE (a b : CrewDocument) : Prop := b.upload_date ≤ a.upload_date

instance : DecidableRel docGE := fun a b => Nat.decLe b.upload_date a.upload_date

instance : IsTotal CrewDocument docGE :=
  ⟨fun a b => (le_total b.upload_date a.upload_date : _ ∨ _)⟩

instance : IsTrans CrewDocument docGE :=
  ⟨fun _ _ _ h1 h2 => le_trans h2 h1⟩

/-- CrewDocument.query.filter_by(crew_id, document_type).order_by(upload_date.desc()).all() -/
def queryByType (docs : List CrewDocument) (cid : Nat) (t : String) : List CrewDocument :=
  List.insertionSort docGE
    (docs.filter (fun d => decide (d.crew_id = cid ∧ d.document_type = t)))

/-- A catalog entry: document type id, display name, required flag. -/
structure CatalogDoc where
  type : String
  name : String
  required : Bool
deriving DecidableEq, Repr

/-- A catalog entry enriched by get_document_categories with the live
per-type query results. -/
structure DocEntry extends CatalogDoc where
  files : List CrewDocument
  uploaded : Bool
  status : String
  count : Nat
deriving DecidableEq, Repr

/-- One category block of the get_document_categories result. -/
structure Category where
  key : String
  name : String
  documents : List DocEntry
deriving DecidableEq, Repr

/-- The static categories dict literal of get_document_categories. -/
def catalogSpec : List (String × String × List CatalogDoc) :=
  [("identity", "Identity Documents",
     [⟨"passport", "Passport Copy", true⟩,
      ⟨"government_id", "Government ID (Aadhaar / PAN / SSN)", false⟩,
      ⟨"photo", "Photo (Passport Size)", true⟩]),
   ("medical", "Medical Documents",
     [⟨"medical_certificate", "Medical Certificate", true⟩,
      ⟨"yellow_fever", "Yellow Fever Certificate", false⟩]),
   ("professional", "Professional Documents",
     [⟨"cdc", "CDC (Seaman Book)", true⟩,
      ⟨"coc_cop", "COC/COP Certificate", true⟩,
      ⟨"stcw_certificates", "STCW Certificates", true⟩,
      ⟨"gmdss_dce", "GMDSS/DCE Certificate", false⟩]),
   ("other", "Other Documents",
     [⟨"resume", "Resume/CV", true⟩,
      ⟨"sea_agreement", "SEA Agreement", false⟩])]

/-- The enrichment loop body of get_document_categories: query all
documents of this type for this crew member, set files/uploaded/status/count. -/
def enrichDoc (cid : Nat) (docs : List CrewDocument) (c : CatalogDoc) : DocEntry :=
  let doc_files := queryByType docs cid c.type
  { toCatalogDoc := c
    files := doc_files
    uploaded := decide (0 < doc_files.length)
    status := if decide (0 < doc_files.length) then "complete" else "missing"
    count := doc_files.length }

/-- get_document_categories of the models: the static catalog with every
entry enriched by the live per-type query. -/
def get_document_categories (cid : Nat) (docs : List CrewDocument) : List Category :=
  catalogSpec.map (fun c => ⟨c.1, c.2.1, c.2.2.map (enrichDoc cid docs)⟩)

/-- The body of get_profile_completion_percentage after the categories are
built: collect required entries, those uploaded, return 100 on an empty
required list, else int(len(uploaded)/len(required)*100).  Nat division
is used for the float truncation; for the reachable counts (k of 7
required types) int((k/7)*100) equals floor(100*k/7) at every k. -/
def completionOfCategories (cats : List Category) : Nat :=
  let required_docs := ((cats.map Category.documents).flatten).filter (fun d => d.required)
  let uploaded_docs := required_docs.filter (fun d => d.uploaded)
  if required_docs.isEmpty then 100
  else uploaded_docs.length * 100 / required_docs.length

/-- get_profile_completion_percentage of the models. -/
def get_profile_completion_percentage (cid : Nat) (docs : List CrewDocument) : Nat :=
  completionOfCategories (get_document_categories cid docs)

/-- The seven required document types, in catalog order. -/
def requiredTypes : List String :=
  ["passport", "photo", "medical_certificate", "cdc", "coc_cop", "stcw_certificates", "resume"]

/-- Whether the crew member has at least one document of the given type. -/
def hasDoc (docs : List CrewDocument) (cid : Nat) (t : String) : Bool :=
  docs.any (fun d => decide (d.crew_id = cid ∧ d.document_type = t))

/-- Python truthiness of the nullable profile_token column: None and the
empty string are falsy. -/
def tokenTruthy : Option String → Bool
  | none => false
  | some s => decide (s ≠ "")

/-- generate_profile_token.  sha256hex stands for the external
hashlib.sha256(...).hexdigest() collaborator and randomHex for
secrets.token_bytes(32).hex(); both are explicit parameters.  Returns the
token together with the (possibly updated and committed) applicant row. -/
def generate_profile_token (sha256hex : String → String) (randomHex : String)
    (c : CrewMemberState) : String × CrewMemberState :=
  if tokenTruthy c.profile_token then
    (c.profile_token.getD "", c)
  else
    let token_data := toString c.id ++ "_" ++ c.passport ++ "_" ++ randomHex
    let tok := sha256hex token_data
    (tok, { c with profile_token := some tok })

/-- Response shapes of the crew_private_profile route (only the shape
matters to the claims): the 404 of get_or_404, the flash-and-redirect
denial, and the rendered profile page. -/
inductive ProfileResponse where
  | notFound
  | deniedRedirect
  | profilePage (crew_id : Nat)
deriving DecidableEq, Repr

/-- GET /my-profile/crew_id-token: get_or_404 on the crew table, then deny
unless the stored token is truthy and equal to the presented one. -/
def crew_private_profile (crewTable : List CrewMemberState) (crew_id : Nat)
    (token : String) : ProfileResponse :=
  match crewTable.find? (fun c => decide (c.id = crew_id)) with
  | none => .notFound
  | some c =>
    if !(tokenTruthy c.profile_token) || decide (c.profile_token ≠ some token) then
      .deniedRedirect
    else
      .profilePage crew_id

/-- POST /admin/crew/crew_id/update_status: the three recognised actions
set status and overwrite admin_notes; updated_at is refreshed and the row
committed unconditionally.  The returned row is the committed row. -/
def update_crew_status (action notes : String) (now : Nat)
    (c : CrewMemberState) : CrewMemberState :=
  let c1 :=
    if action = "approve" then { c with status := 3, admin_notes := some notes }
    else if action = "reject" then { c with status := -1, admin_notes := some notes }
    else if action = "flag" then { c with status := -2, admin_notes := some notes }
    else c
  { c1 with updated_at := now }

/-- An uploaded file as the web layer hands it over: a FileStorage with a
client filename, a content type and a byte count (an empty file input
arrives with filename set to the empty string). -/
structure FileUpload where
  filename : String
  content_type : Option String
  size : Nat
deriving DecidableEq, Repr

/-- The persistent world the upload utilities act on: the crew_documents
table in insertion order, the autoincrement counter for its primary key,
and the byte store as the list of stored paths. -/
structure World where
  documents : List CrewDocument
  nextDocId : Nat
  storage : List String
deriving DecidableEq, Repr

/-- Per-call environment of save_crew_document: the external
werkzeug secure_filename collaborator, the uuid4().hex[:8] suffix drawn
for this call, whether the byte write (file.save) succeeds, and the clock
used for upload_date. -/
structure UploadEnv where
  secureFilename : String → String
  uuidHex : String
  fileSaveOk : Bool
  now : Nat

/-- Outcome of save_crew_document: None returned (empty/missing file),
a record created, or the file.save exception propagating.  Each carries
the world as left behind. -/
inductive SaveResult where
  | skipped (w : World)
  | saved (rec : CrewDocument) (w : World)
  | storageError (w : World)
deriving Repr

/-- save_crew_document of the utils: reject an empty/missing file by
returning None; otherwise write the bytes first (a failing write raises
and leaves the metadata table untouched) and only then insert and commit
the metadata row.  os.path.splitext followed by name+ext recombination is
the identity on the sanitised filename and is elided. -/
def save_crew_document (env : UploadEnv) (file : Option FileUpload)
    (crew_id : Nat) (document_type document_category : String)
    (w : World) : SaveResult :=
  match file with
  | none => .skipped w
  | some f =>
    if f.filename = "" then .skipped w
    else
      let filename := env.secureFilename f.filename
      let unique_filename := "crew_" ++ env.uuidHex ++ "_" ++ filename
      let file_path := "crew_documents/" ++ unique_filename
      if env.fileSaveOk then
        let w1 : World := { w with storage := w.storage ++ [file_path] }
        let doc_record : CrewDocument :=
          { id := w1.nextDocId
            crew_id := crew_id
            document_type := document_type
            document_category := document_category
            filename := file_path
            original_filename := f.filename
            file_size := some (f.size : ℚ)
            mime_type := some (match f.content_type with
              | none => "application/octet-stream"
              | some s => if s = "" then "application/octet-stream" else s)
            upload_date := env.now }
        .saved doc_record
          { w1 with documents := w1.documents ++ [doc_record]
                    nextDocId := w1.nextDocId + 1 }
      else
        .storageError w

/-- Python truthiness of `file and file.filename` in the batch loop. -/
def fileTruthy : Option FileUpload → Bool
  | none => false
  | some f => decide (f.filename ≠ "")

/-- Outcome of save_multiple_crew_documents: the accumulated records, or a
propagated storage exception (which loses the accumulated list but keeps
the world effects of the files already saved). -/
inductive BatchResult where
  | ok (recs : List CrewDocument) (w : World)
  | storageError (w : World)
deriving Repr

/-- save_multiple_crew_documents of the utils: per file, skip unless the
file is truthy with a truthy filename, call save_crew_document, append the
record when one was created.  Each file consumes its own per-call
environment, zipped positionally. -/
def save_multiple_crew_documents (items : List (UploadEnv × Option FileUpload))
    (crew_id : Nat) (document_type document_category : String)
    (w : World) : BatchResult :=
  match items with
  | [] => .ok [] w
  | (env, file) :: rest =>
    if fileTruthy file then
      match save_crew_document env file crew_id document_type document_category w with
      | .storageError w2 => .storageError w2
      | .skipped w2 =>
        save_multiple_crew_documents rest crew_id document_type document_category w2
      | .saved rec w2 =>
        match save_multiple_crew_documents rest crew_id document_type document_category w2 with
        | .storageError w3 => .storageError w3
        | .ok recs w3 => .ok (rec :: recs) w3
    else
      save_multiple_crew_documents rest crew_id document_type document_category w

/-- The one-decimal float formatting of the f-string in
get_file_size_formatted, on exact rationals: the nearest tenth (ties
upward; the claims never depend on tie digits), printed as integer part,
a dot and the tenths digit. -/
def formatOneDecimal (q : ℚ) : String :=
  let n : ℤ := (2 * (q * 10).num + ((q * 10).den : ℤ)) / (2 * ((q * 10).den : ℤ))
  toString (n / 10) ++ "." ++ toString ((n % 10).natAbs)

/-- The unit loop of get_file_size_formatted: return at the first unit
under 1024, dividing the stored size in place otherwise; TB after the
loop.  Returns the formatted text together with the final value of the
mutated size field. -/
def formatLoop : List String → ℚ → String × ℚ
  | [], fs => (formatOneDecimal fs ++ " TB", fs)
  | u :: us, fs =>
    if fs < 1024 then (formatOneDecimal fs ++ " " ++ u, fs)
    else formatLoop us (fs / 1024)

/-- get_file_size_formatted of the models: returns the display text and
the record as the method leaves it (the loop divides self.file_size in
place, so the record comes back with the scaled value). -/
def get_file_size_formatted (d : CrewDocument) : String × CrewDocument :=
  match d.file_size with
  | none => ("Unknown size", d)
  | some fs =>
    if fs = 0 then ("Unknown size", d)
    else
      let r := formatLoop ["B", "KB", "MB", "GB"] fs
      (r.1, { d with file_size := some r.2 })

/-! ## Shared sample data for witnesses -/

/-- A sample crew member row with an issued token. -/
def crewSample : CrewMemberState :=
  { id := 7, name := "A Sample", rank := "Chief Officer", passport := "P123"
    profile_token := some "tok0", status := 0, admin_notes := none
    screening_notes := none, created_at := 10, updated_at := 10 }

/-- An empty persistent world. -/
def world0 : World := { documents := [], nextDocId := 1, storage := [] }

/-- A nonempty uploaded file. -/
def fileA : FileUpload := { filename := "scan.pdf", content_type := some "application/pdf", size := 2048 }

/-- A second nonempty uploaded file. -/
def fileB : FileUpload := { filename := "scan2.pdf", content_type := some "application/pdf", size := 512 }

/-- An upload environment whose byte write succeeds, clock tick 1. -/
def envA : UploadEnv := { secureFilename := fun s => s, uuidHex := "0a1b2c3d", fileSaveOk := true, now := 1 }

/-- An upload environment whose byte write succeeds, clock tick 2. -/
def envB2 : UploadEnv := { secureFilename := fun s => s, uuidHex := "4e5f6071", fileSaveOk := true, now := 2 }

/-- An upload environment whose byte write fails. -/
def envFail : UploadEnv := { secureFilename := fun s => s, uuidHex := "99999999", fileSaveOk := false, now := 3 }

/-! ## Helper lemmas -/

/-- The metadata row save_crew_document builds for file f in world w. -/
def mkDocRecord (env : UploadEnv) (f : FileUpload) (cid : Nat) (dt dc : String)
    (w : World) : CrewDocument :=
  { id := w.nextDocId
    crew_id := cid
    document_type := dt
    document_category := dc
    filename := "crew_documents/" ++ ("crew_" ++ env.uuidHex ++ "_" ++ env.secureFilename f.filename)
    original_filename := f.filename
    file_size := some (f.size : ℚ)
    mime_type := some (match f.content_type with
      | none => "application/octet-stream"
      | some s => if s = "" then "application/octet-stream" else s)
    upload_date := env.now }

theorem save_crew_document_saved (env : UploadEnv) (f : FileUpload)
    (cid : Nat) (dt dc : String) (w : World)
    (hf : ¬ f.filename = "") (hok : env.fileSaveOk = true) :
    save_crew_document env (some f) cid dt dc w
      = SaveResult.saved (mkDocRecord env f cid dt dc w)
          { documents := w.documents ++ [mkDocRecord env f cid dt dc w]
            nextDocId := w.nextDocId + 1
            storage := w.storage ++ [(mkDocRecord env f cid dt dc w).filename] } := by
  simp only [save_crew_document, if_neg hf, hok, if_true, mkDocRecord]

theorem save_crew_document_failed (env : UploadEnv) (f : FileUpload)
    (cid : Nat) (dt dc : String) (w : World)
    (hf : ¬ f.filename = "") (hok : env.fileSaveOk = false) :
    save_crew_document env (some f) cid dt dc w = SaveResult.storageError w := by
  simp only [save_crew_document, if_neg hf, hok, Bool.false_eq_true, if_false]

theorem generate_profile_token_of_truthy (hash : String → String) (r : String)
    (c : CrewMemberState) (h : tokenTruthy c.profile_token = true) :
    generate_profile_token hash r c = (c.profile_token.getD "", c) := by
  simp [generate_profile_token, h]

theorem generate_profile_token_sets (hash : String → String) (r : String)
    (c : CrewMemberState) (h : ¬ tokenTruthy c.profile_token = true) :
    (generate_profile_token hash r c).2.profile_token
        = some ((generate_profile_token hash r c).1) ∧
    (generate_profile_token hash r c).1
        = hash (toString c.id ++ "_" ++ c.passport ++ "_" ++ r) := by
  simp [generate_profile_token, h]

/-! ## Claims -/

/-- C2: generate_profile_token is idempotent: on an applicant whose
profile_token is already set (truthy in the code's sense), it returns the
stored token and leaves the row unchanged; and two successive calls on
the same applicant return the identical token, whatever fresh randomness
the second call draws.  The external sha256 hexdigest never returns the
empty string (it is 64 hex characters), which is the hhash hypothesis. -/
theorem c2_generate_profile_token_idempotent (hash : String → String) (r1 r2 : String)
    (c : CrewMemberState) (hhash : ∀ s, hash s ≠ "") :
    (∀ t, c.profile_token = some t → t ≠ "" → generate_profile_token hash r1 c = (t, c)) ∧
    (generate_profile_token hash r2 (generate_profile_token hash r1 c).2).1
        = (generate_profile_token hash r1 c).1 := by
  constructor
  · intro t ht hne
    simp [generate_profile_token, tokenTruthy, ht, hne]
  · by_cases h : tokenTruthy c.profile_token = true
    · simp [generate_profile_token_of_truthy hash r1 c h,
        generate_profile_token_of_truthy hash r2 c h]
    · have hset := generate_profile_token_sets hash r1 c h
      have htr : tokenTruthy (generate_profile_token hash r1 c).2.profile_token = true := by
        rw [hset.1, hset.2]
        simp [tokenTruthy, hhash]
      rw [generate_profile_token_of_truthy hash r2 _ htr, hset.1]
      rfl

/-- Closed witness for c2_generate_profile_token_idempotent at a concrete
applicant, hash stand-in and random draws. -/
theorem c2_generate_profile_token_idempotent_witness :
    generate_profile_token (fun _ => "f00d") "aa" crewSample = ("tok0", crewSample) ∧
    (generate_profile_token (fun _ => "f00d") "bb"
        (generate_profile_token (fun _ => "f00d") "aa" crewSample).2).1
      = (generate_profile_token (fun _ => "f00d") "aa" crewSample).1 := by
  have h := c2_generate_profile_token_idempotent (fun _ => "f00d") "aa" "bb" crewSample
    (fun s => by simp)
  exact ⟨h.1 "tok0" rfl (by decide), h.2⟩

/-- The applicant row behind the C3 scenario: id 42, stored token xyz. -/
def crew42 : CrewMemberState :=
  { id := 42, name := "J Doe", rank := "AB", passport := "Z9"
    profile_token := some "xyz", status := 0, admin_notes := none
    screening_notes := none, created_at := 0, updated_at := 0 }

/-- The crew table holding only applicant 42. -/
def crewTable42 : List CrewMemberState := [crew42]

/-- C3 counterexample: presenting the wrong token for applicant 42 (stored
token xyz) yields the flash-and-redirect denial, while the same request
against a table without applicant 42 yields a 404; the two denial
responses differ in shape, so the claim that they are identical fails. -/
theorem c3_denials_distinguishable :
    crew_private_profile crewTable42 42 "abc" = ProfileResponse.deniedRedirect ∧
    crew_private_profile [] 42 "abc" = ProfileResponse.notFound ∧
    crew_private_profile crewTable42 42 "abc" ≠ crew_private_profile [] 42 "abc" := by
  refine ⟨by decide, rfl, by decide⟩

/-- C3 amended: a request is authorized exactly when the applicant exists
and the presented token equals its stored, truthy profile token; a wrong
token is denied with the redirect response and a missing applicant with
the 404 response — two denial shapes that are distinguishable, not
identical. -/
theorem c3_token_gate_amended (tbl : List CrewMemberState) (cid : Nat) (tok : String) :
    (∀ c, tbl.find? (fun x => decide (x.id = cid)) = some c →
      ((crew_private_profile tbl cid tok = ProfileResponse.profilePage cid) ↔
        (tokenTruthy c.profile_token = true ∧ c.profile_token = some tok)) ∧
      (c.profile_token ≠ some tok →
        crew_private_profile tbl cid tok = ProfileResponse.deniedRedirect)) ∧
    (tbl.find? (fun x => decide (x.id = cid)) = none →
      crew_private_profile tbl cid tok = ProfileResponse.notFound) ∧
    ProfileResponse.deniedRedirect ≠ ProfileResponse.notFound := by
  refine ⟨?_, ?_, by decide⟩
  · intro c hc
    constructor
    · unfold crew_private_profile
      rw [hc]
      by_cases ht : tokenTruthy c.profile_token = true
      · by_cases he : c.profile_token = some tok
        · simp [ht, he]
        · simp [ht, he]
      · simp [ht]
    · intro hne
      unfold crew_private_profile
      rw [hc]
      simp [hne]
  · intro hnone
    unfold crew_private_profile
    rw [hnone]

/-- Closed witness for c3_token_gate_amended: correct token admitted,
wrong token denied by redirect, missing applicant denied by 404. -/
theorem c3_token_gate_amended_witness :
    crew_private_profile crewTable42 42 "xyz" = ProfileResponse.profilePage 42 ∧
    crew_private_profile crewTable42 42 "abc" = ProfileResponse.deniedRedirect ∧
    crew_private_profile [] 42 "abc" = ProfileResponse.notFound := by
  refine ⟨?_, ?_, ?_⟩
  · exact ((c3_token_gate_amended crewTable42 42 "xyz").1 crew42 (by decide)).1.mpr
      ⟨by decide, by decide⟩
  · exact ((c3_token_gate_amended crewTable42 42 "abc").1 crew42 (by decide)).2 (by decide)
  · exact (c3_token_gate_amended [] 42 "abc").2.1 rfl

/-- C4: for every crew applicant in any current state, the admin action
approve sets status 3, reject sets -1, flag sets -2; each overwrites
admin_notes wholesale with the supplied note and refreshes updated_at;
no guard inspects the current status, so every action is accepted from
every state (the statement quantifies over the whole row c). -/
theorem c4_update_crew_status_transitions (c : CrewMemberState) (notes : String) (now : Nat) :
    update_crew_status "approve" notes now c
        = { c with status := 3, admin_notes := some notes, updated_at := now } ∧
    update_crew_status "reject" notes now c
        = { c with status := -1, admin_notes := some notes, updated_at := now } ∧
    update_crew_status "flag" notes now c
        = { c with status := -2, admin_notes := some notes, updated_at := now } := by
  refine ⟨?_, ?_, ?_⟩ <;> simp [update_crew_status]

/-- C6: save_crew_document rejects a missing file or a file with an empty
filename by returning None (the embedding's skipped result) and leaves the
world untouched: the per-field rejection that the batch caller observes,
with no exception and no record created. -/
theorem c6_empty_file_rejected (env : UploadEnv) (file : Option FileUpload)
    (cid : Nat) (dt dc : String) (w : World)
    (h : file = none ∨ ∃ f, file = some f ∧ f.filename = "") :
    save_crew_document env file cid dt dc w = SaveResult.skipped w := by
  rcases h with h | ⟨f, rfl, hf⟩
  · subst h; rfl
  · simp [save_crew_document, hf]

/-- Closed witness for c6_empty_file_rejected: a missing file and a
named-but-empty file are both rejected without touching the world. -/
theorem c6_empty_file_rejected_witness :
    save_crew_document envA none 1 "passport" "identity" world0 = SaveResult.skipped world0 ∧
    save_crew_document envA (some { filename := "", content_type := none, size := 0 })
        1 "passport" "identity" world0 = SaveResult.skipped world0 :=
  ⟨c6_empty_file_rejected envA none 1 "passport" "identity" world0 (Or.inl rfl),
   c6_empty_file_rejected envA (some { filename := "", content_type := none, size := 0 })
     1 "passport" "identity" world0 (Or.inr ⟨_, rfl, rfl⟩)⟩

/-- C7: write-then-record ordering of save_crew_document.  If the byte
write fails the call raises and the world is left with its documents
table unchanged — no orphan metadata row; if the byte write succeeds the
stored path enters the byte store and only then is the metadata row
appended and committed, and the row's filename is exactly the stored
path. -/
theorem c7_no_orphan_metadata (env : UploadEnv) (f : FileUpload)
    (cid : Nat) (dt dc : String) (w : World) (hf : f.filename ≠ "") :
    (env.fileSaveOk = false →
      save_crew_document env (some f) cid dt dc w = SaveResult.storageError w) ∧
    (env.fileSaveOk = true →
      ∃ rec, save_crew_document env (some f) cid dt dc w
          = SaveResult.saved rec
              { documents := w.documents ++ [rec]
                nextDocId := w.nextDocId + 1
                storage := w.storage ++ [rec.filename] } ∧
        rec.filename = "crew_documents/" ++ ("crew_" ++ env.uuidHex ++ "_" ++ env.secureFilename f.filename)) := by
  constructor
  · intro hok
    exact save_crew_document_failed env f cid dt dc w hf hok
  · intro hok
    exact ⟨mkDocRecord env f cid dt dc w,
      save_crew_document_saved env f cid dt dc w hf hok, rfl⟩

/-- Closed witness for c7_no_orphan_metadata: a failing byte write on a
concrete file leaves the empty world untouched, a succeeding one appends
exactly one record. -/
theorem c7_no_orphan_metadata_witness :
    save_crew_document envFail (some fileA) 1 "passport" "identity" world0
        = SaveResult.storageError world0 ∧
    ∃ rec, save_crew_document envA (some fileA) 1 "passport" "identity" world0
        = SaveResult.saved rec
            { documents := world0.documents ++ [rec]
              nextDocId := world0.nextDocId + 1
              storage := world0.storage ++ [rec.filename] } ∧
      rec.filename = "crew_documents/" ++ ("crew_" ++ envA.uuidHex ++ "_" ++ envA.secureFilename fileA.filename) :=
  ⟨(c7_no_orphan_metadata envFail fileA 1 "passport" "identity" world0 (by decide)).1 rfl,
   (c7_no_orphan_metadata envA fileA 1 "passport" "identity" world0 (by decide)).2 rfl⟩

/-- C10: a status-update request whose action is none of approve, reject
or flag takes no branch, yet the handler still sets updated_at to the
current time and commits: status and admin_notes (and every other field)
are unchanged while updated_at is refreshed. -/
theorem c10_unknown_action_frame (c : CrewMemberState) (action notes : String) (now : Nat)
    (h1 : action ≠ "approve") (h2 : action ≠ "reject") (h3 : action ≠ "flag") :
    update_crew_status action notes now c = { c with updated_at := now } := by
  simp [update_crew_status, h1, h2, h3]

/-- Closed witness for c10_unknown_action_frame at a concrete row and an
unrecognised action string. -/
theorem c10_unknown_action_frame_witness :
    update_crew_status "escalate" "note" 99 crewSample = { crewSample with updated_at := 99 } :=
  c10_unknown_action_frame crewSample "escalate" "note" 99 (by decide) (by decide) (by decide)

/-- C5: save_multiple_crew_documents skips an empty or missing file
wherever it sits in the batch without aborting or changing anything else
(dropping it from the batch gives the identical outcome), and a batch of
one valid file followed by one empty file yields exactly one record with
no error surfaced to the batch caller. -/
theorem c5_batch_skips_empty :
    (∀ (pre post : List (UploadEnv × Option FileUpload)) (env : UploadEnv)
        (file : Option FileUpload) (cid : Nat) (dt dc : String) (w : World),
      fileTruthy file = false →
      save_multiple_crew_documents (pre ++ (env, file) :: post) cid dt dc w
        = save_multiple_crew_documents (pre ++ post) cid dt dc w) ∧
    (∀ (env1 env2 : UploadEnv) (f : FileUpload) (file2 : Option FileUpload)
        (cid : Nat) (dt dc : String) (w : World),
      f.filename ≠ "" → env1.fileSaveOk = true → fileTruthy file2 = false →
      ∃ rec w2, save_multiple_crew_documents [(env1, some f), (env2, file2)] cid dt dc w
          = BatchResult.ok [rec] w2) := by
  constructor
  · intro pre post env file cid dt dc w hfile
    induction pre generalizing w with
    | nil =>
      simp only [List.nil_append, save_multiple_crew_documents, hfile, Bool.false_eq_true,
        if_false]
    | cons hd tl ih =>
      obtain ⟨env0, file0⟩ := hd
      simp only [List.cons_append, save_multiple_crew_documents]
      cases h0 : fileTruthy file0 with
      | false => simpa [h0] using ih w
      | true =>
        simp only [h0, if_true]
        cases hsv : save_crew_document env0 file0 cid dt dc w with
        | storageError w2 => rfl
        | skipped w2 => simp only [List.append_eq, ih w2]
        | saved rec w2 => simp only [List.append_eq, ih w2]
  · intro env1 env2 f file2 cid dt dc w hf hok h2
    have h1 : fileTruthy (some f) = true := by simp [fileTruthy, hf]
    refine ⟨mkDocRecord env1 f cid dt dc w,
      { documents := w.documents ++ [mkDocRecord env1 f cid dt dc w]
        nextDocId := w.nextDocId + 1
        storage := w.storage ++ [(mkDocRecord env1 f cid dt dc w).filename] }, ?_⟩
    simp only [save_multiple_crew_documents, h1, if_true,
      save_crew_document_saved env1 f cid dt dc w hf hok, h2, Bool.false_eq_true, if_false]

/-- Closed witness for c5_batch_skips_empty: dropping the trailing missing
file from a concrete two-file batch changes nothing, and the batch of one
valid plus one missing file returns exactly one record. -/
theorem c5_batch_skips_empty_witness :
    save_multiple_crew_documents [(envA, some fileA), (envB2, none)] 1 "passport" "identity" world0
        = save_multiple_crew_documents [(envA, some fileA)] 1 "passport" "identity" world0 ∧
    ∃ rec w2,
      save_multiple_crew_documents [(envA, some fileA), (envB2, none)] 1 "passport" "identity" world0
        = BatchResult.ok [rec] w2 :=
  ⟨c5_batch_skips_empty.1 [(envA, some fileA)] [] envB2 none 1 "passport" "identity" world0 rfl,
   c5_batch_skips_empty.2 envA envB2 fileA none 1 "passport" "identity" world0
     (by decide) rfl rfl⟩

/-- C8: two successful uploads of the same document type for the same
applicant create two distinct records — pure inserts, the table grows by
exactly those two rows and every pre-existing row is untouched — and the
per-type query (the listByType of get_document_categories) returns both,
most recent first.  hfresh restricts to an applicant with no prior
document of that type so that the returned list is exactly the pair. -/
theorem c8_two_uploads_listed_desc (env1 env2 : UploadEnv) (f1 f2 : FileUpload)
    (cid : Nat) (dt dc : String) (w : World)
    (h1 : f1.filename ≠ "") (h2 : f2.filename ≠ "")
    (hok1 : env1.fileSaveOk = true) (hok2 : env2.fileSaveOk = true)
    (ht : env1.now < env2.now)
    (hfresh : w.documents.filter
        (fun d => decide (d.crew_id = cid ∧ d.document_type = dt)) = []) :
    ∃ rec1 w1 rec2 w2,
      save_crew_document env1 (some f1) cid dt dc w = SaveResult.saved rec1 w1 ∧
      save_crew_document env2 (some f2) cid dt dc w1 = SaveResult.saved rec2 w2 ∧
      rec1 ≠ rec2 ∧
      w2.documents = w.documents ++ [rec1, rec2] ∧
      queryByType w2.documents cid dt = [rec2, rec1] := by
  have hs1 := save_crew_document_saved env1 f1 cid dt dc w h1 hok1
  set rec1 := mkDocRecord env1 f1 cid dt dc w with hr1
  set w1 : World :=
    { documents := w.documents ++ [rec1]
      nextDocId := w.nextDocId + 1
      storage := w.storage ++ [rec1.filename] } with hw1
  have hs2 := save_crew_document_saved env2 f2 cid dt dc w1 h2 hok2
  set rec2 := mkDocRecord env2 f2 cid dt dc w1 with hr2
  set w2 : World :=
    { documents := w1.documents ++ [rec2]
      nextDocId := w1.nextDocId + 1
      storage := w1.storage ++ [rec2.filename] } with hw2
  have hne : rec1 ≠ rec2 := by
    intro hcon
    have := congrArg CrewDocument.id hcon
    simp [hr1, hr2, hw1, mkDocRecord] at this
  have hdocs : w2.documents = w.documents ++ [rec1, rec2] := by
    simp [hw2, hw1]
  have hp1 : (decide (rec1.crew_id = cid ∧ rec1.document_type = dt)) = true := by
    simp [hr1, mkDocRecord]
  have hp2 : (decide (rec2.crew_id = cid ∧ rec2.document_type = dt)) = true := by
    simp [hr2, mkDocRecord]
  have hq : queryByType w2.documents cid dt = [rec2, rec1] := by
    rw [hdocs]
    unfold queryByType
    rw [List.filter_append, hfresh, List.nil_append]
    have hfil : List.filter
        (fun d => decide (d.crew_id = cid ∧ d.document_type = dt)) [rec1, rec2]
        = [rec1, rec2] := by
      simp only [List.filter_cons, hp1, hp2, if_true, List.filter_nil]
    rw [hfil]
    have hnglt : ¬ docGE rec1 rec2 := by
      simp only [docGE, hr1, hr2, mkDocRecord, not_le]
      exact ht
    simp [List.insertionSort, List.orderedInsert, hnglt]
  exact ⟨rec1, w1, rec2, w2, hs1, hs2, hne, hdocs, hq⟩

/-- Closed witness for c8_two_uploads_listed_desc: two concrete uploads of
the passport type at ticks 1 and 2 into the empty world. -/
theorem c8_two_uploads_listed_desc_witness :
    ∃ rec1 w1 rec2 w2,
      save_crew_document envA (some fileA) 1 "passport" "identity" world0
          = SaveResult.saved rec1 w1 ∧
      save_crew_document envB2 (some fileB) 1 "passport" "identity" w1
          = SaveResult.saved rec2 w2 ∧
      rec1 ≠ rec2 ∧
      w2.documents = world0.documents ++ [rec1, rec2] ∧
      queryByType w2.documents 1 "passport" = [rec2, rec1] :=
  c8_two_uploads_listed_desc envA envB2 fileA fileB 1 "passport" "identity" world0
    (by decide) (by decide) rfl rfl (by decide) rfl

/-- A stored record of a 2048-byte file, as created by a successful
upload. -/
def docBig : CrewDocument :=
  { id := 1, crew_id := 1, document_type := "passport", document_category := "identity"
    filename := "crew_documents/crew_0a1b2c3d_scan.pdf", original_filename := "scan.pdf"
    file_size := some 2048, mime_type := some "application/pdf", upload_date := 1 }

/-- C9 evidence (code bug): the display helper get_file_size_formatted is
not read-only — its unit loop divides the stored file_size in place, so
formatting a 2048-byte record returns the text 2.0 KB but leaves the
record with file_size 2 instead of 2048; a second call on the same record
then reports the absurd 2.0 B.  This contradicts the lifecycle rule that
no operation mutates a DocumentRecord after creation. -/
theorem c9_get_file_size_formatted_mutates :
    (get_file_size_formatted docBig).1 = "2.0 KB" ∧
    (get_file_size_formatted docBig).2.file_size = some 2 ∧
    (get_file_size_formatted docBig).2.file_size ≠ docBig.file_size ∧
    (get_file_size_formatted (get_file_size_formatted docBig).2).1 = "2.0 B" := by
  have hfod : formatOneDecimal 2 = "2.0" := by
    have h20 : ((2 : ℚ) * 10) = 20 := by norm_num
    unfold formatOneDecimal
    rw [h20]
    decide
  have hloop : formatLoop ["B", "KB", "MB", "GB"] 2048 = ("2.0 KB", 2) := by
    have hdiv : (2048 : ℚ) / 1024 = 2 := by norm_num
    have h1 : formatLoop ["B", "KB", "MB", "GB"] 2048
        = formatLoop ["KB", "MB", "GB"] ((2048 : ℚ) / 1024) := by
      simp only [formatLoop]
      rw [if_neg (by norm_num : ¬ (2048 : ℚ) < 1024)]
    rw [h1, hdiv]
    simp only [formatLoop]
    rw [if_pos (by norm_num : (2 : ℚ) < 1024), hfod]
    rfl
  have hloop2 : formatLoop ["B", "KB", "MB", "GB"] 2 = ("2.0 B", 2) := by
    simp only [formatLoop]
    rw [if_pos (by norm_num : (2 : ℚ) < 1024), hfod]
    rfl
  have hmain : get_file_size_formatted docBig
      = ("2.0 KB", { docBig with file_size := some 2 }) := by
    show (if (2048 : ℚ) = 0 then ("Unknown size", docBig)
        else
          let r := formatLoop ["B", "KB", "MB", "GB"] 2048
          (r.1, { docBig with file_size := some r.2 }))
      = ("2.0 KB", { docBig with file_size := some 2 })
    rw [if_neg (by norm_num : ¬ (2048 : ℚ) = 0)]
    simp only [hloop]
  have hmain2 : (get_file_size_formatted { docBig with file_size := some 2 }).1 = "2.0 B" := by
    show (if (2 : ℚ) = 0 then ("Unknown size", { docBig with file_size := some (2 : ℚ) })
        else
          let r := formatLoop ["B", "KB", "MB", "GB"] 2
          (r.1, { { docBig with file_size := some (2 : ℚ) } with file_size := some r.2 })).1
      = "2.0 B"
    rw [if_neg (by norm_num : ¬ (2 : ℚ) = 0)]
    simp only [hloop2]
  refine ⟨by rw [hmain], by rw [hmain], ?_, ?_⟩
  · rw [hmain]
    simp only [docBig]
    norm_num
  · rw [hmain]
    exact hmain2

/-! ## Completion percentage (C1) -/

theorem uploaded_eq_hasDoc (docs : List CrewDocument) (cid : Nat) (t : String) :
    decide (0 < (queryByType docs cid t).length) = hasDoc docs cid t := by
  apply Bool.coe_iff_coe.mp
  simp only [decide_eq_true_eq, queryByType, List.length_insertionSort, hasDoc,
    List.any_eq_true, decide_eq_true_eq, List.length_pos, Ne, List.filter_eq_nil_iff]
  push_neg
  constructor
  · rintro ⟨a, ha, hp⟩; exact ⟨a, ha, hp⟩
  · rintro ⟨a, ha, hp⟩; exact ⟨a, ha, hp⟩

theorem completion_formula (cid : Nat) (docs : List CrewDocument) :
    get_profile_completion_percentage cid docs
      = 100 * (requiredTypes.filter (fun t => hasDoc docs cid t)).length / 7 := by
  have e1 := uploaded_eq_hasDoc docs cid "passport"
  have e2 := uploaded_eq_hasDoc docs cid "photo"
  have e3 := uploaded_eq_hasDoc docs cid "medical_certificate"
  have e4 := uploaded_eq_hasDoc docs cid "cdc"
  have e5 := uploaded_eq_hasDoc docs cid "coc_cop"
  have e6 := uploaded_eq_hasDoc docs cid "stcw_certificates"
  have e7 := uploaded_eq_hasDoc docs cid "resume"
  have hreq : ((((get_document_categories cid docs).map Category.documents).flatten).filter
        (fun d => d.required))
      = [enrichDoc cid docs ⟨"passport", "Passport Copy", true⟩,
         enrichDoc cid docs ⟨"photo", "Photo (Passport Size)", true⟩,
         enrichDoc cid docs ⟨"medical_certificate", "Medical Certificate", true⟩,
         enrichDoc cid docs ⟨"cdc", "CDC (Seaman Book)", true⟩,
         enrichDoc cid docs ⟨"coc_cop", "COC/COP Certificate", true⟩,
         enrichDoc cid docs ⟨"stcw_certificates", "STCW Certificates", true⟩,
         enrichDoc cid docs ⟨"resume", "Resume/CV", true⟩] := rfl
  simp only [get_profile_completion_percentage, completionOfCategories, hreq]
  rw [← List.countP_eq_length_filter, ← List.countP_eq_length_filter]
  simp only [List.isEmpty_cons, Bool.false_eq_true, if_false, requiredTypes,
    List.countP_cons, List.countP_nil, List.length_cons, List.length_nil, enrichDoc,
    e1, e2, e3, e4, e5, e6, e7]
  rw [Nat.mul_comm]

theorem completion_vacuous (cats : List Category)
    (h : ∀ e ∈ (cats.map Category.documents).flatten, e.required = false) :
    completionOfCategories cats = 100 := by
  unfold completionOfCategories
  have hnil : ((cats.map Category.documents).flatten).filter (fun d => d.required) = [] := by
    rw [List.filter_eq_nil_iff]
    intro a ha
    simp [h a ha]
  simp [hnil]

theorem hasDoc_cons_of_ne (d : CrewDocument) (docs : List CrewDocument) (cid : Nat)
    (t : String) (h : d.document_type ≠ t) :
    hasDoc (d :: docs) cid t = hasDoc docs cid t := by
  simp [hasDoc, List.any_cons, h]

/-- C1: the completion percentage is exactly
floor(100 * uploadedRequiredCount / 7) where uploadedRequiredCount counts
the required document types (passport, photo, medical_certificate, cdc,
coc_cop, stcw_certificates, resume) with at least one record; the
categories evaluator returns 100 when the catalog holds zero required
specs; the percentage is 0 when no required type has a record and 100
when all 7 do; a record of a type outside the required set (optional or
unknown) never changes the value; and the result never exceeds 100 (it is
a Nat, so it always lies in the interval from 0 to 100). -/
theorem c1_completion_percentage (cid : Nat) (docs : List CrewDocument) :
    (get_profile_completion_percentage cid docs
        = 100 * (requiredTypes.filter (fun t => hasDoc docs cid t)).length / 7) ∧
    (∀ cats : List Category,
      (∀ e ∈ (cats.map Category.documents).flatten, e.required = false) →
      completionOfCategories cats = 100) ∧
    ((∀ t ∈ requiredTypes, hasDoc docs cid t = false) →
      get_profile_completion_percentage cid docs = 0) ∧
    ((∀ t ∈ requiredTypes, hasDoc docs cid t = true) →
      get_profile_completion_percentage cid docs = 100) ∧
    (∀ d : CrewDocument, d.document_type ∉ requiredTypes →
      get_profile_completion_percentage cid (d :: docs)
        = get_profile_completion_percentage cid docs) ∧
    get_profile_completion_percentage cid docs ≤ 100 := by
  refine ⟨completion_formula cid docs, completion_vacuous, ?_, ?_, ?_, ?_⟩
  · intro h
    rw [completion_formula]
    have hnil : (requiredTypes.filter (fun t => hasDoc docs cid t)) = [] := by
      rw [List.filter_eq_nil_iff]
      intro t ht
      simp [h t ht]
    rw [hnil]
    rfl
  · intro h
    rw [completion_formula]
    have hall : (requiredTypes.filter (fun t => hasDoc docs cid t)) = requiredTypes :=
      List.filter_eq_self.mpr h
    rw [hall]
    rfl
  · intro d hd
    rw [completion_formula, completion_formula]
    have hsame : (requiredTypes.filter (fun t => hasDoc (d :: docs) cid t))
        = (requiredTypes.filter (fun t => hasDoc docs cid t)) := by
      apply List.filter_congr
      intro t ht
      refine hasDoc_cons_of_ne d docs cid t ?_
      intro hc
      exact hd (hc ▸ ht)
    rw [hsame]
  · rw [completion_formula]
    have hk : (requiredTypes.filter (fun t => hasDoc docs cid t)).length ≤ 7 :=
      List.length_filter_le _ _
    calc 100 * (requiredTypes.filter (fun t => hasDoc docs cid t)).length / 7
        ≤ 100 * 7 / 7 := Nat.div_le_div_right (Nat.mul_le_mul_left 100 hk)
      _ = 100 := by norm_num

/-- A stored document record of the given type for crew member 1. -/
def mkDoc (i : Nat) (t : String) : CrewDocument :=
  { id := i, crew_id := 1, document_type := t, document_category := "c"
    filename := "f", original_filename := "o", file_size := some 1
    mime_type := none, upload_date := i }

/-- One record of every required document type for crew member 1. -/
def docsFull7 : List CrewDocument :=
  [mkDoc 1 "passport", mkDoc 2 "photo", mkDoc 3 "medical_certificate", mkDoc 4 "cdc",
   mkDoc 5 "coc_cop", mkDoc 6 "stcw_certificates", mkDoc 7 "resume"]

/-- A record of an optional type for crew member 1. -/
def docOptional : CrewDocument := mkDoc 8 "yellow_fever"

/-- Closed witness for c1_completion_percentage: all seven required types
give 100, no documents give 0, an optional upload changes nothing, and an
empty catalog evaluates to 100. -/
theorem c1_completion_percentage_witness :
    get_profile_completion_percentage 1 docsFull7 = 100 ∧
    get_profile_completion_percentage 1 [] = 0 ∧
    get_profile_completion_percentage 1 (docOptional :: docsFull7)
        = get_profile_completion_percentage 1 docsFull7 ∧
    completionOfCategories [] = 100 :=
  ⟨(c1_completion_percentage 1 docsFull7).2.2.2.1 (by decide),
   (c1_completion_percentage 1 []).2.2.1 (by decide),
   (c1_completion_percentage 1 docsFull7).2.2.2.2.1 docOptional (by decide),
   (c1_completion_percentage 1 []).2.1 [] (by simp)⟩
